import Mathlib

/-!
# Michigan Election Realignment Map — normalization & classification pipeline

A shallow embedding of the election-data pipeline of the repository
(`tools/aggregate_election_data.py` together with the classification logic of
`index.html`).  The repository ships only `config.example.js` (whose embedded
README documents the category scheme, the data statistics and the pipeline
behaviour); the pipeline code itself is not part of the published sources, so
the executable definitions below are modelled from the specification, anchored
on the concrete category examples and data statistics of `config.example.js`.
-/

namespace MIRealign

/-- Party codes: the fixed enumeration of §3 of the spec
(`DEM, REP, LIB, GRN, IND, WRITE_IN`) plus the explicit `UNKNOWN` variant. -/
inductive Party where
  | DEM | REP | LIB | GRN | IND | WRITE_IN | UNKNOWN
deriving DecidableEq, Repr

/-- The 15 competitiveness categories listed in `config.example.js`
(Competitiveness Categories section). -/
inductive Category where
  | TOSSUP
  | D_TILT | D_LEAN | D_LIKELY | D_SAFE | D_STRONGHOLD | D_DOMINANT | D_ANNIHILATION
  | R_TILT | R_LEAN | R_LIKELY | R_SAFE | R_STRONGHOLD | R_DOMINANT | R_ANNIHILATION
deriving DecidableEq, Repr

/-- A classification band: a closed-open interval `[lo, hi)` of margins
(`none` = unbounded on that side) together with its category.  The spec's
design notes require the table to be "an explicit, versioned, ordered list of
(lowerBound, upperBound, category) tuples". -/
structure Band where
  lo : Option ℚ
  hi : Option ℚ
  cat : Category
deriving DecidableEq, Repr

/-- Lower bound check for a band. -/
def lbOK : Option ℚ → ℚ → Prop
  | none, _ => True
  | some l, m => l ≤ m

/-- Upper bound check for a band (strict: intervals are closed-open). -/
def ubOK : Option ℚ → ℚ → Prop
  | none, _ => True
  | some h, m => m < h

instance (o : Option ℚ) (m : ℚ) : Decidable (lbOK o m) := by
  cases o <;> simp [lbOK] <;> infer_instance

instance (o : Option ℚ) (m : ℚ) : Decidable (ubOK o m) := by
  cases o <;> simp [ubOK] <;> infer_instance

/-- A margin `m` falls in band `b` iff `lo ≤ m < hi` (missing bounds vacuous). -/
def bandContains (b : Band) (m : ℚ) : Prop := lbOK b.lo m ∧ ubOK b.hi m

instance (b : Band) (m : ℚ) : Decidable (bandContains b m) := by
  unfold bandContains; infer_instance

/-- Modelled from the spec: the 15-band margin table of the Margin & Classifier
(the authoritative numeric table lives in `index.html`, which is not among the
published sources).  Breakpoints are fixed by the category examples embedded in
`src/config.example.js`: TOSSUP at 0.28, TILT at 0.71 and 0.96, LEAN at 3.19
and 4.26, LIKELY at 7.86 and 8.80, SAFE at 14.90 and 18.04, STRONGHOLD at 20.05
and 25.69, DOMINANT at 30.26 and 30.31, ANNIHILATION at 42.14 and 45.51 —
giving magnitude bands 0–0.5, 0.5–1, 1–5, 5–10, 10–20, 20–30, 30–40, 40+.
Margins are Democratic-positive. -/
def fullBands : List Band :=
  [ ⟨none, some (-40), .R_ANNIHILATION⟩,
    ⟨some (-40), some (-30), .R_DOMINANT⟩,
    ⟨some (-30), some (-20), .R_STRONGHOLD⟩,
    ⟨some (-20), some (-10), .R_SAFE⟩,
    ⟨some (-10), some (-5), .R_LIKELY⟩,
    ⟨some (-5), some (-1), .R_LEAN⟩,
    ⟨some (-1), some (-(1/2)), .R_TILT⟩,
    ⟨some (-(1/2)), some (1/2), .TOSSUP⟩,
    ⟨some (1/2), some 1, .D_TILT⟩,
    ⟨some 1, some 5, .D_LEAN⟩,
    ⟨some 5, some 10, .D_LIKELY⟩,
    ⟨some 10, some 20, .D_SAFE⟩,
    ⟨some 20, some 30, .D_STRONGHOLD⟩,
    ⟨some 30, some 40, .D_DOMINANT⟩,
    ⟨some 40, none, .D_ANNIHILATION⟩ ]

/-- Modelled from the spec: the classification function of the Margin &
Classifier (`index.html` is not among the published sources; thresholds are
anchored on the category examples of `src/config.example.js`, see
`fullBands`). -/
def classify (m : ℚ) : Category :=
  if m < -40 then .R_ANNIHILATION
  else if m < -30 then .R_DOMINANT
  else if m < -20 then .R_STRONGHOLD
  else if m < -10 then .R_SAFE
  else if m < -5 then .R_LIKELY
  else if m < -1 then .R_LEAN
  else if m < -(1/2) then .R_TILT
  else if m < 1/2 then .TOSSUP
  else if m < 1 then .D_TILT
  else if m < 5 then .D_LEAN
  else if m < 10 then .D_LIKELY
  else if m < 20 then .D_SAFE
  else if m < 30 then .D_STRONGHOLD
  else if m < 40 then .D_DOMINANT
  else .D_ANNIHILATION

/-- `classify` on the interval of band `R_ANNIHILATION`. -/
lemma classify_eq_R_ANNIHILATION (m : ℚ) (hhi : m < -40) :
    classify m = .R_ANNIHILATION := by
  unfold classify
  rw [if_pos hhi]

/-- `classify` on the interval of band `R_DOMINANT`. -/
lemma classify_eq_R_DOMINANT (m : ℚ) (hlo : -40 ≤ m) (hhi : m < -30) :
    classify m = .R_DOMINANT := by
  unfold classify
  rw [if_neg (by linarith : ¬ m < -40),
    if_pos hhi]

/-- `classify` on the interval of band `R_STRONGHOLD`. -/
lemma classify_eq_R_STRONGHOLD (m : ℚ) (hlo : -30 ≤ m) (hhi : m < -20) :
    classify m = .R_STRONGHOLD := by
  unfold classify
  rw [if_neg (by linarith : ¬ m < -40),
    if_neg (by linarith : ¬ m < -30),
    if_pos hhi]

/-- `classify` on the interval of band `R_SAFE`. -/
lemma classify_eq_R_SAFE (m : ℚ) (hlo : -20 ≤ m) (hhi : m < -10) :
    classify m = .R_SAFE := by
  unfold classify
  rw [if_neg (by linarith : ¬ m < -40),
    if_neg (by linarith : ¬ m < -30),
    if_neg (by linarith : ¬ m < -20),
    if_pos hhi]

/-- `classify` on the interval of band `R_LIKELY`. -/
lemma classify_eq_R_LIKELY (m : ℚ) (hlo : -10 ≤ m) (hhi : m < -5) :
    classify m = .R_LIKELY := by
  unfold classify
  rw [if_neg (by linarith : ¬ m < -40),
    if_neg (by linarith : ¬ m < -30),
    if_neg (by linarith : ¬ m < -20),
    if_neg (by linarith : ¬ m < -10),
    if_pos hhi]

/-- `classify` on the interval of band `R_LEAN`. -/
lemma classify_eq_R_LEAN (m : ℚ) (hlo : -5 ≤ m) (hhi : m < -1) :
    classify m = .R_LEAN := by
  unfold classify
  rw [if_neg (by linarith : ¬ m < -40),
    if_neg (by linarith : ¬ m < -30),
    if_neg (by linarith : ¬ m < -20),
    if_neg (by linarith : ¬ m < -10),
    if_neg (by linarith : ¬ m < -5),
    if_pos hhi]

/-- `classify` on the interval of band `R_TILT`. -/
lemma classify_eq_R_TILT (m : ℚ) (hlo : -1 ≤ m) (hhi : m < -(1/2)) :
    classify m = .R_TILT := by
  unfold classify
  rw [if_neg (by linarith : ¬ m < -40),
    if_neg (by linarith : ¬ m < -30),
    if_neg (by linarith : ¬ m < -20),
    if_neg (by linarith : ¬ m < -10),
    if_neg (by linarith : ¬ m < -5),
    if_neg (by linarith : ¬ m < -1),
    if_pos hhi]

/-- `classify` on the interval of band `TOSSUP`. -/
lemma classify_eq_TOSSUP (m : ℚ) (hlo : -(1/2) ≤ m) (hhi : m < 1/2) :
    classify m = .TOSSUP := by
  unfold classify
  rw [if_neg (by linarith : ¬ m < -40),
    if_neg (by linarith : ¬ m < -30),
    if_neg (by linarith : ¬ m < -20),
    if_neg (by linarith : ¬ m < -10),
    if_neg (by linarith : ¬ m < -5),
    if_neg (by linarith : ¬ m < -1),
    if_neg (by linarith : ¬ m < -(1/2)),
    if_pos hhi]

/-- `classify` on the interval of band `D_TILT`. -/
lemma classify_eq_D_TILT (m : ℚ) (hlo : 1/2 ≤ m) (hhi : m < 1) :
    classify m = .D_TILT := by
  unfold classify
  rw [if_neg (by linarith : ¬ m < -40),
    if_neg (by linarith : ¬ m < -30),
    if_neg (by linarith : ¬ m < -20),
    if_neg (by linarith : ¬ m < -10),
    if_neg (by linarith : ¬ m < -5),
    if_neg (by linarith : ¬ m < -1),
    if_neg (by linarith : ¬ m < -(1/2)),
    if_neg (by linarith : ¬ m < 1/2),
    if_pos hhi]

/-- `classify` on the interval of band `D_LEAN`. -/
lemma classify_eq_D_LEAN (m : ℚ) (hlo : 1 ≤ m) (hhi : m < 5) :
    classify m = .D_LEAN := by
  unfold classify
  rw [if_neg (by linarith : ¬ m < -40),
    if_neg (by linarith : ¬ m < -30),
    if_neg (by linarith : ¬ m < -20),
    if_neg (by linarith : ¬ m < -10),
    if_neg (by linarith : ¬ m < -5),
    if_neg (by linarith : ¬ m < -1),
    if_neg (by linarith : ¬ m < -(1/2)),
    if_neg (by linarith : ¬ m < 1/2),
    if_neg (by linarith : ¬ m < 1),
    if_pos hhi]

/-- `classify` on the interval of band `D_LIKELY`. -/
lemma classify_eq_D_LIKELY (m : ℚ) (hlo : 5 ≤ m) (hhi : m < 10) :
    classify m = .D_LIKELY := by
  unfold classify
  rw [if_neg (by linarith : ¬ m < -40),
    if_neg (by linarith : ¬ m < -30),
    if_neg (by linarith : ¬ m < -20),
    if_neg (by linarith : ¬ m < -10),
    if_neg (by linarith : ¬ m < -5),
    if_neg (by linarith : ¬ m < -1),
    if_neg (by linarith : ¬ m < -(1/2)),
    if_neg (by linarith : ¬ m < 1/2),
    if_neg (by linarith : ¬ m < 1),
    if_neg (by linarith : ¬ m < 5),
    if_pos hhi]

/-- `classify` on the interval of band `D_SAFE`. -/
lemma classify_eq_D_SAFE (m : ℚ) (hlo : 10 ≤ m) (hhi : m < 20) :
    classify m = .D_SAFE := by
  unfold classify
  rw [if_neg (by linarith : ¬ m < -40),
    if_neg (by linarith : ¬ m < -30),
    if_neg (by linarith : ¬ m < -20),
    if_neg (by linarith : ¬ m < -10),
    if_neg (by linarith : ¬ m < -5),
    if_neg (by linarith : ¬ m < -1),
    if_neg (by linarith : ¬ m < -(1/2)),
    if_neg (by linarith : ¬ m < 1/2),
    if_neg (by linarith : ¬ m < 1),
    if_neg (by linarith : ¬ m < 5),
    if_neg (by linarith : ¬ m < 10),
    if_pos hhi]

/-- `classify` on the interval of band `D_STRONGHOLD`. -/
lemma classify_eq_D_STRONGHOLD (m : ℚ) (hlo : 20 ≤ m) (hhi : m < 30) :
    classify m = .D_STRONGHOLD := by
  unfold classify
  rw [if_neg (by linarith : ¬ m < -40),
    if_neg (by linarith : ¬ m < -30),
    if_neg (by linarith : ¬ m < -20),
    if_neg (by linarith : ¬ m < -10),
    if_neg (by linarith : ¬ m < -5),
    if_neg (by linarith : ¬ m < -1),
    if_neg (by linarith : ¬ m < -(1/2)),
    if_neg (by linarith : ¬ m < 1/2),
    if_neg (by linarith : ¬ m < 1),
    if_neg (by linarith : ¬ m < 5),
    if_neg (by linarith : ¬ m < 10),
    if_neg (by linarith : ¬ m < 20),
    if_pos hhi]

/-- `classify` on the interval of band `D_DOMINANT`. -/
lemma classify_eq_D_DOMINANT (m : ℚ) (hlo : 30 ≤ m) (hhi : m < 40) :
    classify m = .D_DOMINANT := by
  unfold classify
  rw [if_neg (by linarith : ¬ m < -40),
    if_neg (by linarith : ¬ m < -30),
    if_neg (by linarith : ¬ m < -20),
    if_neg (by linarith : ¬ m < -10),
    if_neg (by linarith : ¬ m < -5),
    if_neg (by linarith : ¬ m < -1),
    if_neg (by linarith : ¬ m < -(1/2)),
    if_neg (by linarith : ¬ m < 1/2),
    if_neg (by linarith : ¬ m < 1),
    if_neg (by linarith : ¬ m < 5),
    if_neg (by linarith : ¬ m < 10),
    if_neg (by linarith : ¬ m < 20),
    if_neg (by linarith : ¬ m < 30),
    if_pos hhi]

/-- `classify` on the interval of band `D_ANNIHILATION`. -/
lemma classify_eq_D_ANNIHILATION (m : ℚ) (hlo : 40 ≤ m) :
    classify m = .D_ANNIHILATION := by
  unfold classify
  rw [if_neg (by linarith : ¬ m < -40),
    if_neg (by linarith : ¬ m < -30),
    if_neg (by linarith : ¬ m < -20),
    if_neg (by linarith : ¬ m < -10),
    if_neg (by linarith : ¬ m < -5),
    if_neg (by linarith : ¬ m < -1),
    if_neg (by linarith : ¬ m < -(1/2)),
    if_neg (by linarith : ¬ m < 1/2),
    if_neg (by linarith : ¬ m < 1),
    if_neg (by linarith : ¬ m < 5),
    if_neg (by linarith : ¬ m < 10),
    if_neg (by linarith : ¬ m < 20),
    if_neg (by linarith : ¬ m < 30),
    if_neg (by linarith : ¬ m < 40)]


/-- Coverage: every rational margin falls in some band of the table, and the
category of that band is the one `classify` computes. -/
lemma classify_mem_band (m : ℚ) :
    ∃ b ∈ fullBands, bandContains b m ∧ b.cat = classify m := by
  rcases lt_or_le m (-40) with h | h0
  · exact ⟨⟨none, some (-40), .R_ANNIHILATION⟩, by simp [fullBands],
      ⟨trivial, h⟩, (classify_eq_R_ANNIHILATION m h).symm⟩
  rcases lt_or_le m (-30) with h | h1
  · exact ⟨⟨some (-40), some (-30), .R_DOMINANT⟩, by simp [fullBands],
      ⟨h0, h⟩, (classify_eq_R_DOMINANT m h0 h).symm⟩
  rcases lt_or_le m (-20) with h | h2
  · exact ⟨⟨some (-30), some (-20), .R_STRONGHOLD⟩, by simp [fullBands],
      ⟨h1, h⟩, (classify_eq_R_STRONGHOLD m h1 h).symm⟩
  rcases lt_or_le m (-10) with h | h3
  · exact ⟨⟨some (-20), some (-10), .R_SAFE⟩, by simp [fullBands],
      ⟨h2, h⟩, (classify_eq_R_SAFE m h2 h).symm⟩
  rcases lt_or_le m (-5) with h | h4
  · exact ⟨⟨some (-10), some (-5), .R_LIKELY⟩, by simp [fullBands],
      ⟨h3, h⟩, (classify_eq_R_LIKELY m h3 h).symm⟩
  rcases lt_or_le m (-1) with h | h5
  · exact ⟨⟨some (-5), some (-1), .R_LEAN⟩, by simp [fullBands],
      ⟨h4, h⟩, (classify_eq_R_LEAN m h4 h).symm⟩
  rcases lt_or_le m (-(1/2)) with h | h6
  · exact ⟨⟨some (-1), some (-(1/2)), .R_TILT⟩, by simp [fullBands],
      ⟨h5, h⟩, (classify_eq_R_TILT m h5 h).symm⟩
  rcases lt_or_le m (1/2) with h | h7
  · exact ⟨⟨some (-(1/2)), some (1/2), .TOSSUP⟩, by simp [fullBands],
      ⟨h6, h⟩, (classify_eq_TOSSUP m h6 h).symm⟩
  rcases lt_or_le m (1) with h | h8
  · exact ⟨⟨some (1/2), some (1), .D_TILT⟩, by simp [fullBands],
      ⟨h7, h⟩, (classify_eq_D_TILT m h7 h).symm⟩
  rcases lt_or_le m (5) with h | h9
  · exact ⟨⟨some (1), some (5), .D_LEAN⟩, by simp [fullBands],
      ⟨h8, h⟩, (classify_eq_D_LEAN m h8 h).symm⟩
  rcases lt_or_le m (10) with h | h10
  · exact ⟨⟨some (5), some (10), .D_LIKELY⟩, by simp [fullBands],
      ⟨h9, h⟩, (classify_eq_D_LIKELY m h9 h).symm⟩
  rcases lt_or_le m (20) with h | h11
  · exact ⟨⟨some (10), some (20), .D_SAFE⟩, by simp [fullBands],
      ⟨h10, h⟩, (classify_eq_D_SAFE m h10 h).symm⟩
  rcases lt_or_le m (30) with h | h12
  · exact ⟨⟨some (20), some (30), .D_STRONGHOLD⟩, by simp [fullBands],
      ⟨h11, h⟩, (classify_eq_D_STRONGHOLD m h11 h).symm⟩
  rcases lt_or_le m (40) with h | h13
  · exact ⟨⟨some (30), some (40), .D_DOMINANT⟩, by simp [fullBands],
      ⟨h12, h⟩, (classify_eq_D_DOMINANT m h12 h).symm⟩
  exact ⟨⟨some (40), none, .D_ANNIHILATION⟩, by simp [fullBands],
    ⟨h13, trivial⟩, (classify_eq_D_ANNIHILATION m h13).symm⟩

/-- Any band of the table containing `m` carries the category `classify m`. -/
lemma cat_eq_classify_of_mem_band {b : Band} {m : ℚ} (hb : b ∈ fullBands)
    (h : bandContains b m) : b.cat = classify m := by
  fin_cases hb
  · exact (classify_eq_R_ANNIHILATION m h.2).symm
  · exact (classify_eq_R_DOMINANT m h.1 h.2).symm
  · exact (classify_eq_R_STRONGHOLD m h.1 h.2).symm
  · exact (classify_eq_R_SAFE m h.1 h.2).symm
  · exact (classify_eq_R_LIKELY m h.1 h.2).symm
  · exact (classify_eq_R_LEAN m h.1 h.2).symm
  · exact (classify_eq_R_TILT m h.1 h.2).symm
  · exact (classify_eq_TOSSUP m h.1 h.2).symm
  · exact (classify_eq_D_TILT m h.1 h.2).symm
  · exact (classify_eq_D_LEAN m h.1 h.2).symm
  · exact (classify_eq_D_LIKELY m h.1 h.2).symm
  · exact (classify_eq_D_SAFE m h.1 h.2).symm
  · exact (classify_eq_D_STRONGHOLD m h.1 h.2).symm
  · exact (classify_eq_D_DOMINANT m h.1 h.2).symm
  · exact (classify_eq_D_ANNIHILATION m h.1).symm

/-- The categories of the 15 bands are pairwise distinct. -/
lemma fullBands_cats_nodup : (fullBands.map Band.cat).Nodup := by decide

/-- Disjointness: no margin lies in two distinct bands of the table. -/
lemma band_unique {b₁ b₂ : Band} (m : ℚ) (hb₁ : b₁ ∈ fullBands)
    (hb₂ : b₂ ∈ fullBands) (h₁ : bandContains b₁ m) (h₂ : bandContains b₂ m) :
    b₁ = b₂ := by
  refine List.inj_on_of_nodup_map fullBands_cats_nodup hb₁ hb₂ ?_
  rw [cat_eq_classify_of_mem_band hb₁ h₁, cat_eq_classify_of_mem_band hb₂ h₂]

/-! ## Data model (§3 of the spec) -/

/-- Canonical county name plus stable geographic identifier (GEOID). -/
structure CountyIdentity where
  name : String
  geoid : Nat
deriving DecidableEq, Repr

/-- Canonical display name plus party code. -/
structure CandidateIdentity where
  name : String
  party : Party
deriving DecidableEq, Repr

/-- A raw vote record as produced by the Record Parser. -/
structure RawVoteRecord where
  year : Nat
  office : String
  countyNameRaw : String
  candidateNameRaw : String
  partyRaw : String
  votes : Nat
deriving DecidableEq, Repr

/-- A record after name normalization. -/
structure NormalizedRecord where
  year : Nat
  office : String
  county : CountyIdentity
  candidate : CandidateIdentity
  votes : Nat
deriving DecidableEq, Repr

/-- One county's aggregated contest. -/
structure ContestResult where
  year : Nat
  office : String
  county : CountyIdentity
  candidates : List (CandidateIdentity × Nat)
  totalVotes : Nat
deriving DecidableEq, Repr

/-- A `ContestResult` plus its signed margin and competitiveness category. -/
structure ClassifiedResult where
  contest : ContestResult
  marginPercent : ℚ
  category : Category
deriving DecidableEq, Repr

/-- The error taxonomy of §7 of the spec. -/
inductive PipelineError where
  | structuralParse
  | unmappedCounty
  | missingMajorParty
  | dataIntegrity
deriving DecidableEq, Repr

/-! ## Name Normalizer (§4.2 of the spec) -/

/-- Modelled from the spec: the narrow canonicalization function of the Name
Normalizer (lowercase, strip punctuation, trim); the normalizer itself lives in
`tools/aggregate_election_data.py`, which is not among the published sources. -/
def canonicalize (s : String) : String :=
  let lowered := (s.toList.map Char.toLower).filter fun c => c.isAlphanum || c == ' '
  let led := lowered.dropWhile fun c => c == ' '
  let trimmed := (led.reverse.dropWhile fun c => c == ' ').reverse
  trimmed.asString

/-- The canonical enumeration of Michigan's 83 counties with census GEOIDs. -/
def michiganCounties : List CountyIdentity :=
  [
    CountyIdentity.mk "Alcona" 26001, CountyIdentity.mk "Alger" 26003,
    CountyIdentity.mk "Allegan" 26005, CountyIdentity.mk "Alpena" 26007,
    CountyIdentity.mk "Antrim" 26009, CountyIdentity.mk "Arenac" 26011,
    CountyIdentity.mk "Baraga" 26013, CountyIdentity.mk "Barry" 26015,
    CountyIdentity.mk "Bay" 26017, CountyIdentity.mk "Benzie" 26019,
    CountyIdentity.mk "Berrien" 26021, CountyIdentity.mk "Branch" 26023,
    CountyIdentity.mk "Calhoun" 26025, CountyIdentity.mk "Cass" 26027,
    CountyIdentity.mk "Charlevoix" 26029, CountyIdentity.mk "Cheboygan" 26031,
    CountyIdentity.mk "Chippewa" 26033, CountyIdentity.mk "Clare" 26035,
    CountyIdentity.mk "Clinton" 26037, CountyIdentity.mk "Crawford" 26039,
    CountyIdentity.mk "Delta" 26041, CountyIdentity.mk "Dickinson" 26043,
    CountyIdentity.mk "Eaton" 26045, CountyIdentity.mk "Emmet" 26047,
    CountyIdentity.mk "Genesee" 26049, CountyIdentity.mk "Gladwin" 26051,
    CountyIdentity.mk "Gogebic" 26053, CountyIdentity.mk "Grand Traverse" 26055,
    CountyIdentity.mk "Gratiot" 26057, CountyIdentity.mk "Hillsdale" 26059,
    CountyIdentity.mk "Houghton" 26061, CountyIdentity.mk "Huron" 26063,
    CountyIdentity.mk "Ingham" 26065, CountyIdentity.mk "Ionia" 26067,
    CountyIdentity.mk "Iosco" 26069, CountyIdentity.mk "Iron" 26071,
    CountyIdentity.mk "Isabella" 26073, CountyIdentity.mk "Jackson" 26075,
    CountyIdentity.mk "Kalamazoo" 26077, CountyIdentity.mk "Kalkaska" 26079,
    CountyIdentity.mk "Kent" 26081, CountyIdentity.mk "Keweenaw" 26083,
    CountyIdentity.mk "Lake" 26085, CountyIdentity.mk "Lapeer" 26087,
    CountyIdentity.mk "Leelanau" 26089, CountyIdentity.mk "Lenawee" 26091,
    CountyIdentity.mk "Livingston" 26093, CountyIdentity.mk "Luce" 26095,
    CountyIdentity.mk "Mackinac" 26097, CountyIdentity.mk "Macomb" 26099,
    CountyIdentity.mk "Manistee" 26101, CountyIdentity.mk "Marquette" 26103,
    CountyIdentity.mk "Mason" 26105, CountyIdentity.mk "Mecosta" 26107,
    CountyIdentity.mk "Menominee" 26109, CountyIdentity.mk "Midland" 26111,
    CountyIdentity.mk "Missaukee" 26113, CountyIdentity.mk "Monroe" 26115,
    CountyIdentity.mk "Montcalm" 26117, CountyIdentity.mk "Montmorency" 26119,
    CountyIdentity.mk "Muskegon" 26121, CountyIdentity.mk "Newaygo" 26123,
    CountyIdentity.mk "Oakland" 26125, CountyIdentity.mk "Oceana" 26127,
    CountyIdentity.mk "Ogemaw" 26129, CountyIdentity.mk "Ontonagon" 26131,
    CountyIdentity.mk "Osceola" 26133, CountyIdentity.mk "Oscoda" 26135,
    CountyIdentity.mk "Otsego" 26137, CountyIdentity.mk "Ottawa" 26139,
    CountyIdentity.mk "Presque Isle" 26141, CountyIdentity.mk "Roscommon" 26143,
    CountyIdentity.mk "Saginaw" 26145, CountyIdentity.mk "St. Clair" 26147,
    CountyIdentity.mk "St. Joseph" 26149, CountyIdentity.mk "Sanilac" 26151,
    CountyIdentity.mk "Schoolcraft" 26153, CountyIdentity.mk "Shiawassee" 26155,
    CountyIdentity.mk "Tuscola" 26157, CountyIdentity.mk "Van Buren" 26159,
    CountyIdentity.mk "Washtenaw" 26161, CountyIdentity.mk "Wayne" 26163,
    CountyIdentity.mk "Wexford" 26165 ]

/-- Modelled from the spec: the explicit county lookup table of the Name
Normalizer (in `tools/aggregate_election_data.py`, not among the published
sources), keyed by canonicalized spellings; alternate spellings such as
"Saint Clair" for "St. Clair" map to the same identity. -/
def countyLookup : List (String × CountyIdentity) :=
  [
    ("alcona", CountyIdentity.mk "Alcona" 26001),
    ("alger", CountyIdentity.mk "Alger" 26003),
    ("allegan", CountyIdentity.mk "Allegan" 26005),
    ("alpena", CountyIdentity.mk "Alpena" 26007),
    ("antrim", CountyIdentity.mk "Antrim" 26009),
    ("arenac", CountyIdentity.mk "Arenac" 26011),
    ("baraga", CountyIdentity.mk "Baraga" 26013),
    ("barry", CountyIdentity.mk "Barry" 26015),
    ("bay", CountyIdentity.mk "Bay" 26017),
    ("benzie", CountyIdentity.mk "Benzie" 26019),
    ("berrien", CountyIdentity.mk "Berrien" 26021),
    ("branch", CountyIdentity.mk "Branch" 26023),
    ("calhoun", CountyIdentity.mk "Calhoun" 26025),
    ("cass", CountyIdentity.mk "Cass" 26027),
    ("charlevoix", CountyIdentity.mk "Charlevoix" 26029),
    ("cheboygan", CountyIdentity.mk "Cheboygan" 26031),
    ("chippewa", CountyIdentity.mk "Chippewa" 26033),
    ("clare", CountyIdentity.mk "Clare" 26035),
    ("clinton", CountyIdentity.mk "Clinton" 26037),
    ("crawford", CountyIdentity.mk "Crawford" 26039),
    ("delta", CountyIdentity.mk "Delta" 26041),
    ("dickinson", CountyIdentity.mk "Dickinson" 26043),
    ("eaton", CountyIdentity.mk "Eaton" 26045),
    ("emmet", CountyIdentity.mk "Emmet" 26047),
    ("genesee", CountyIdentity.mk "Genesee" 26049),
    ("gladwin", CountyIdentity.mk "Gladwin" 26051),
    ("gogebic", CountyIdentity.mk "Gogebic" 26053),
    ("grand traverse", CountyIdentity.mk "Grand Traverse" 26055),
    ("gratiot", CountyIdentity.mk "Gratiot" 26057),
    ("hillsdale", CountyIdentity.mk "Hillsdale" 26059),
    ("houghton", CountyIdentity.mk "Houghton" 26061),
    ("huron", CountyIdentity.mk "Huron" 26063),
    ("ingham", CountyIdentity.mk "Ingham" 26065),
    ("ionia", CountyIdentity.mk "Ionia" 26067),
    ("iosco", CountyIdentity.mk "Iosco" 26069),
    ("iron", CountyIdentity.mk "Iron" 26071),
    ("isabella", CountyIdentity.mk "Isabella" 26073),
    ("jackson", CountyIdentity.mk "Jackson" 26075),
    ("kalamazoo", CountyIdentity.mk "Kalamazoo" 26077),
    ("kalkaska", CountyIdentity.mk "Kalkaska" 26079),
    ("kent", CountyIdentity.mk "Kent" 26081),
    ("keweenaw", CountyIdentity.mk "Keweenaw" 26083),
    ("lake", CountyIdentity.mk "Lake" 26085),
    ("lapeer", CountyIdentity.mk "Lapeer" 26087),
    ("leelanau", CountyIdentity.mk "Leelanau" 26089),
    ("lenawee", CountyIdentity.mk "Lenawee" 26091),
    ("livingston", CountyIdentity.mk "Livingston" 26093),
    ("luce", CountyIdentity.mk "Luce" 26095),
    ("mackinac", CountyIdentity.mk "Mackinac" 26097),
    ("macomb", CountyIdentity.mk "Macomb" 26099),
    ("manistee", CountyIdentity.mk "Manistee" 26101),
    ("marquette", CountyIdentity.mk "Marquette" 26103),
    ("mason", CountyIdentity.mk "Mason" 26105),
    ("mecosta", CountyIdentity.mk "Mecosta" 26107),
    ("menominee", CountyIdentity.mk "Menominee" 26109),
    ("midland", CountyIdentity.mk "Midland" 26111),
    ("missaukee", CountyIdentity.mk "Missaukee" 26113),
    ("monroe", CountyIdentity.mk "Monroe" 26115),
    ("montcalm", CountyIdentity.mk "Montcalm" 26117),
    ("montmorency", CountyIdentity.mk "Montmorency" 26119),
    ("muskegon", CountyIdentity.mk "Muskegon" 26121),
    ("newaygo", CountyIdentity.mk "Newaygo" 26123),
    ("oakland", CountyIdentity.mk "Oakland" 26125),
    ("oceana", CountyIdentity.mk "Oceana" 26127),
    ("ogemaw", CountyIdentity.mk "Ogemaw" 26129),
    ("ontonagon", CountyIdentity.mk "Ontonagon" 26131),
    ("osceola", CountyIdentity.mk "Osceola" 26133),
    ("oscoda", CountyIdentity.mk "Oscoda" 26135),
    ("otsego", CountyIdentity.mk "Otsego" 26137),
    ("ottawa", CountyIdentity.mk "Ottawa" 26139),
    ("presque isle", CountyIdentity.mk "Presque Isle" 26141),
    ("roscommon", CountyIdentity.mk "Roscommon" 26143),
    ("saginaw", CountyIdentity.mk "Saginaw" 26145),
    ("st clair", CountyIdentity.mk "St. Clair" 26147),
    ("st joseph", CountyIdentity.mk "St. Joseph" 26149),
    ("sanilac", CountyIdentity.mk "Sanilac" 26151),
    ("schoolcraft", CountyIdentity.mk "Schoolcraft" 26153),
    ("shiawassee", CountyIdentity.mk "Shiawassee" 26155),
    ("tuscola", CountyIdentity.mk "Tuscola" 26157),
    ("van buren", CountyIdentity.mk "Van Buren" 26159),
    ("washtenaw", CountyIdentity.mk "Washtenaw" 26161),
    ("wayne", CountyIdentity.mk "Wayne" 26163),
    ("wexford", CountyIdentity.mk "Wexford" 26165),
    ("saint clair", CountyIdentity.mk "St. Clair" 26147),
    ("saint joseph", CountyIdentity.mk "St. Joseph" 26149) ]

/-- Modelled from the spec: county normalization; unmatched county names are a
hard error (`UnmappedCountyError`). -/
def normalizeCounty (raw : String) : Except PipelineError CountyIdentity :=
  match countyLookup.lookup (canonicalize raw) with
  | some c => .ok c
  | none => .error .unmappedCounty

/-- Modelled from the spec: party-code normalization; unknown party strings map
to the explicit `UNKNOWN` code. -/
def partyLookup : List (String × Party) :=
  [ ("DEM", .DEM), ("DEMOCRAT", .DEM), ("DEMOCRATIC", .DEM),
    ("REP", .REP), ("REPUBLICAN", .REP),
    ("LIB", .LIB), ("LIBERTARIAN", .LIB),
    ("GRN", .GRN), ("GREEN", .GRN),
    ("IND", .IND), ("INDEPENDENT", .IND),
    ("WRITE-IN", .WRITE_IN), ("WRITEIN", .WRITE_IN) ]

/-- Normalize a raw party string to the fixed enumeration. -/
def normalizeParty (raw : String) : Party :=
  (partyLookup.lookup raw.toUpper).getD .UNKNOWN

/-- Modelled from the spec: the candidate-spelling lookup table (alternate
spellings to canonical display names). -/
def candidateNameDirectory : List (String × String) :=
  [ ("al gore", "Al Gore"), ("gore al", "Al Gore"),
    ("george w bush", "George W. Bush"), ("bush george w", "George W. Bush"),
    ("debbie stabenow", "Debbie Stabenow"), ("stabenow debbie", "Debbie Stabenow"),
    ("ralph nader", "Ralph Nader") ]

/-- The `WRITE_IN` / "Other" fallback bucket for unmatched candidates. -/
def writeInBucket : CandidateIdentity := ⟨"Other", .WRITE_IN⟩

/-- Modelled from the spec: candidate normalization; unmatched candidate names
fall back to the `WRITE_IN` bucket and processing continues
(`UnmappedCandidateError` is recoverable, hence this function is total). -/
def normalizeCandidate (rawName rawParty : String) : CandidateIdentity :=
  match candidateNameDirectory.lookup (canonicalize rawName) with
  | some n => ⟨n, normalizeParty rawParty⟩
  | none => writeInBucket

/-- Normalize one raw record; fatal only on an unmapped county. -/
def normalizeRecord (r : RawVoteRecord) : Except PipelineError NormalizedRecord :=
  match normalizeCounty r.countyNameRaw with
  | .error e => .error e
  | .ok c =>
    .ok { year := r.year, office := r.office, county := c,
          candidate := normalizeCandidate r.candidateNameRaw r.partyRaw,
          votes := r.votes }

/-- Run the Name Normalizer over a whole input; the first unmapped county
halts the run. -/
def normalizeAll : List RawVoteRecord → Except PipelineError (List NormalizedRecord)
  | [] => .ok []
  | r :: rs =>
    match normalizeRecord r with
    | .error e => .error e
    | .ok nr =>
      match normalizeAll rs with
      | .error e => .error e
      | .ok nrs => .ok (nr :: nrs)

/-! ## Aggregator (§4.3 of the spec) -/

/-- Position of a party in the fixed enumeration (used only to order candidate
lists deterministically). -/
def partyIdx : Party → Nat
  | .DEM => 0 | .REP => 1 | .LIB => 2 | .GRN => 3 | .IND => 4
  | .WRITE_IN => 5 | .UNKNOWN => 6

lemma partyIdx_injective : ∀ p q : Party, partyIdx p = partyIdx q → p = q := by
  intro p q h
  cases p <;> cases q <;> simp_all [partyIdx]

/-- Deterministic total order on county identities (by GEOID, then name). -/
def countyLE (a b : CountyIdentity) : Prop :=
  a.geoid < b.geoid ∨ (a.geoid = b.geoid ∧ a.name ≤ b.name)

instance : DecidableRel countyLE := fun a b => by
  unfold countyLE; infer_instance

instance : IsTotal CountyIdentity countyLE where
  total a b := by
    rcases lt_trichotomy a.geoid b.geoid with h | h | h
    · exact Or.inl (Or.inl h)
    · rcases le_total a.name b.name with hn | hn
      · exact Or.inl (Or.inr ⟨h, hn⟩)
      · exact Or.inr (Or.inr ⟨h.symm, hn⟩)
    · exact Or.inr (Or.inl h)

instance : IsTrans CountyIdentity countyLE where
  trans a b c hab hbc := by
    rcases hab with h1 | ⟨e1, n1⟩ <;> rcases hbc with h2 | ⟨e2, n2⟩
    · exact Or.inl (h1.trans h2)
    · exact Or.inl (lt_of_lt_of_le h1 (le_of_eq e2))
    · exact Or.inl (lt_of_le_of_lt (le_of_eq e1) h2)
    · exact Or.inr ⟨e1.trans e2, n1.trans n2⟩

instance : IsAntisymm CountyIdentity countyLE where
  antisymm a b hab hba := by
    rcases hab with h1 | ⟨e1, n1⟩ <;> rcases hba with h2 | ⟨e2, n2⟩
    · exact absurd (h1.trans h2) (lt_irrefl _)
    · exact absurd h1 (by rw [e2]; exact lt_irrefl _)
    · exact absurd h2 (by rw [e1]; exact lt_irrefl _)
    · have hn := le_antisymm n1 n2
      cases a; cases b; simp_all

/-- Deterministic total order on candidate identities (by name, then party). -/
def candLE (a b : CandidateIdentity) : Prop :=
  a.name < b.name ∨ (a.name = b.name ∧ partyIdx a.party ≤ partyIdx b.party)

instance : DecidableRel candLE := fun a b => by
  unfold candLE; infer_instance

instance : IsTotal CandidateIdentity candLE where
  total a b := by
    rcases lt_trichotomy a.name b.name with h | h | h
    · exact Or.inl (Or.inl h)
    · rcases le_total (partyIdx a.party) (partyIdx b.party) with hp | hp
      · exact Or.inl (Or.inr ⟨h, hp⟩)
      · exact Or.inr (Or.inr ⟨h.symm, hp⟩)
    · exact Or.inr (Or.inl h)

instance : IsTrans CandidateIdentity candLE where
  trans a b c hab hbc := by
    rcases hab with h1 | ⟨e1, n1⟩ <;> rcases hbc with h2 | ⟨e2, n2⟩
    · exact Or.inl (h1.trans h2)
    · exact Or.inl (lt_of_lt_of_le h1 (le_of_eq e2))
    · exact Or.inl (lt_of_le_of_lt (le_of_eq e1) h2)
    · exact Or.inr ⟨e1.trans e2, n1.trans n2⟩

instance : IsAntisymm CandidateIdentity candLE where
  antisymm a b hab hba := by
    rcases hab with h1 | ⟨e1, n1⟩ <;> rcases hba with h2 | ⟨e2, n2⟩
    · exact absurd (h1.trans h2) (lt_irrefl _)
    · exact absurd h1 (by rw [e2]; exact lt_irrefl _)
    · exact absurd h2 (by rw [e1]; exact lt_irrefl _)
    · have hp := partyIdx_injective _ _ (le_antisymm n1 n2)
      cases a; cases b; simp_all

/-- The input records belonging to one county. -/
def recordsFor (recs : List NormalizedRecord) (c : CountyIdentity) :
    List NormalizedRecord :=
  recs.filter fun r => decide (r.county = c)

/-- Total votes for one candidate identity: the sum over all matching records
(records for the same candidate are summed, never overwritten). -/
def votesFor (recs : List NormalizedRecord) (k : CandidateIdentity) : Nat :=
  ((recs.filter fun r => decide (r.candidate = k)).map NormalizedRecord.votes).sum

/-- The distinct candidate identities of a record list, deterministically
ordered. -/
def candKeys (recs : List NormalizedRecord) : List CandidateIdentity :=
  List.insertionSort candLE ((recs.map NormalizedRecord.candidate).dedup)

/-- Group one county's records by candidate identity and sum the votes. -/
def candidateTallies (recs : List NormalizedRecord) :
    List (CandidateIdentity × Nat) :=
  (candKeys recs).map fun k => (k, votesFor recs k)

/-- The aggregated `ContestResult` of one county. -/
def contestFor (year : Nat) (office : String) (recs : List NormalizedRecord)
    (c : CountyIdentity) : ContestResult where
  year := year
  office := office
  county := c
  candidates := candidateTallies (recordsFor recs c)
  totalVotes := ((recordsFor recs c).map NormalizedRecord.votes).sum

/-- The distinct counties of the input, deterministically ordered. -/
def countyKeys (recs : List NormalizedRecord) : List CountyIdentity :=
  List.insertionSort countyLE ((recs.map NormalizedRecord.county).dedup)

/-- Modelled from the spec: the Aggregator for one (year, office) group (in
`tools/aggregate_election_data.py`, not among the published sources): group by
(county identity, candidate identity), sum votes, one `ContestResult` per
county appearing in the input. -/
def aggregate (year : Nat) (office : String) (recs : List NormalizedRecord) :
    List ContestResult :=
  (countyKeys recs).map (contestFor year office recs)

/-- Aggregation followed by the data-integrity check of §4.3: counties whose
contest total is zero are reported as `dataIntegrity` errors and excluded from
the emitted results. -/
def aggregateChecked (year : Nat) (office : String)
    (recs : List NormalizedRecord) : List ContestResult :=
  (aggregate year office recs).filter fun cr => decide (0 < cr.totalVotes)

/-! ## Margin & Classifier (§4.4 of the spec) -/

/-- One fold step of the top-candidate search: keep the best-so-far candidate
of party `p`, preferring higher vote counts. -/
def topStep (p : Party) (best : Option (CandidateIdentity × Nat))
    (c : CandidateIdentity × Nat) : Option (CandidateIdentity × Nat) :=
  if c.1.party = p then
    match best with
    | none => some c
    | some b => if b.2 < c.2 then some c else some b
  else best

/-- The top candidate of the given party (highest vote count), if any. -/
def topByParty (p : Party) (cands : List (CandidateIdentity × Nat)) :
    Option (CandidateIdentity × Nat) :=
  cands.foldl (topStep p) none

/-- Modelled from the spec: the two-party margin,
`(Democratic votes − Republican votes) / totalVotes × 100`, positive favoring
Democrats; fails with `MissingMajorPartyCandidateError` when either major
party is absent from the contest. -/
def marginOf (cr : ContestResult) : Except PipelineError ℚ :=
  match topByParty .DEM cr.candidates, topByParty .REP cr.candidates with
  | some d, some r =>
    .ok (((d.2 : ℚ) - (r.2 : ℚ)) / (cr.totalVotes : ℚ) * 100)
  | _, _ => .error .missingMajorParty

/-- Classify one contest: margin plus competitiveness category. -/
def classifyContest (cr : ContestResult) : Except PipelineError ClassifiedResult :=
  match marginOf cr with
  | .ok m => .ok ⟨cr, m, classify m⟩
  | .error e => .error e

/-- Classify a batch of contests; a contest whose classification fails is
excluded from the output (partial-failure isolation), the rest are kept. -/
def classifyAll (crs : List ContestResult) : List ClassifiedResult :=
  crs.filterMap fun cr => (classifyContest cr).toOption

/-! ## Dataset Emitter (§4.5 of the spec) -/

/-- Serialize a party code. -/
def partyCode : Party → String
  | .DEM => "DEM" | .REP => "REP" | .LIB => "LIB" | .GRN => "GRN"
  | .IND => "IND" | .WRITE_IN => "WRI" | .UNKNOWN => "UNK"

/-- Serialize a category code. -/
def categoryCode : Category → String
  | .TOSSUP => "TOSSUP"
  | .D_TILT => "D_TILT" | .D_LEAN => "D_LEAN" | .D_LIKELY => "D_LIKELY"
  | .D_SAFE => "D_SAFE" | .D_STRONGHOLD => "D_STRONGHOLD"
  | .D_DOMINANT => "D_DOMINANT" | .D_ANNIHILATION => "D_ANNIHILATION"
  | .R_TILT => "R_TILT" | .R_LEAN => "R_LEAN" | .R_LIKELY => "R_LIKELY"
  | .R_SAFE => "R_SAFE" | .R_STRONGHOLD => "R_STRONGHOLD"
  | .R_DOMINANT => "R_DOMINANT" | .R_ANNIHILATION => "R_ANNIHILATION"

/-- Serialize one candidate line. -/
def serializeCandidate (c : CandidateIdentity × Nat) : String :=
  c.1.name ++ ":" ++ partyCode c.1.party ++ ":" ++ toString c.2

/-- Serialize a rational margin exactly (numerator/denominator). -/
def serializeRat (q : ℚ) : String :=
  toString q.num ++ "/" ++ toString q.den

/-- Serialize one classified county result. -/
def serializeResult (res : ClassifiedResult) : String :=
  toString res.contest.year ++ "," ++ res.contest.office ++ "," ++
    res.contest.county.name ++ "," ++ toString res.contest.county.geoid ++
    ",[" ++ String.intercalate ";" (res.contest.candidates.map serializeCandidate) ++
    "]," ++ toString res.contest.totalVotes ++ "," ++
    serializeRat res.marginPercent ++ "," ++ categoryCode res.category ++ "\n"

/-- Modelled from the spec: the Dataset Emitter, serializing the classified
results in their deterministic (county-sorted) order. -/
def emitDataset (results : List ClassifiedResult) : String :=
  String.join (results.map serializeResult)

/-- Modelled from the spec: the whole pipeline on one (year, office) group of
already-parsed raw records: Normalizer → Aggregator → Classifier → Emitter.
A fatal `UnmappedCountyError` halts the run. -/
def runPipeline (year : Nat) (office : String) (raws : List RawVoteRecord) :
    Except PipelineError String :=
  match normalizeAll raws with
  | .error e => .error e
  | .ok recs => .ok (emitDataset (classifyAll (aggregateChecked year office recs)))

/-! ## Aggregation lemmas -/

/-- Splitting a vote sum along a Boolean predicate. -/
lemma sum_map_filter_add {α : Type} (l : List α) (p : α → Bool) (v : α → Nat) :
    ((l.filter p).map v).sum + ((l.filter fun a => !(p a)).map v).sum
      = (l.map v).sum := by
  induction l with
  | nil => simp
  | cons a l ih =>
    by_cases h : p a <;> simp [List.filter_cons, h] <;> omega

/-- Summing `votesFor` over a duplicate-free key list covering all records
recovers the total vote count: the grouped sums partition the input. -/
lemma sum_votesFor_eq (keys : List CandidateIdentity) :
    ∀ l : List NormalizedRecord, keys.Nodup →
      (∀ r ∈ l, r.candidate ∈ keys) →
      ((keys.map fun k => votesFor l k).sum = (l.map NormalizedRecord.votes).sum) := by
  induction keys with
  | nil =>
    intro l _ hcov
    cases l with
    | nil => simp
    | cons r l => exact absurd (hcov r (by simp)) (by simp)
  | cons k keys ih =>
    intro l hnd hcov
    have hrest : ∀ k2 ∈ keys,
        votesFor (l.filter fun r => !(decide (r.candidate = k))) k2 = votesFor l k2 := by
      intro k2 hk2
      have hne : k2 ≠ k := by
        rintro rfl
        exact (List.nodup_cons.mp hnd).1 hk2
      have hfe :
          (l.filter fun a => decide (a.candidate = k2) && !(decide (a.candidate = k)))
            = l.filter fun r => decide (r.candidate = k2) := by
        apply List.filter_congr
        intro r _
        by_cases hr : r.candidate = k2
        · simp [hr, hne]
        · simp [hr]
      unfold votesFor
      rw [List.filter_filter, hfe]
    have hcov2 : ∀ r ∈ l.filter fun r => !(decide (r.candidate = k)),
        r.candidate ∈ keys := by
      intro r hr
      have hmem := List.mem_of_mem_filter hr
      have hprop := List.of_mem_filter hr
      rcases List.mem_cons.mp (hcov r hmem) with h | h
      · exfalso
        simp [h] at hprop
      · exact h
    have hkeys :
        (keys.map fun k2 => votesFor l k2).sum
          = ((l.filter fun r => !(decide (r.candidate = k))).map
              NormalizedRecord.votes).sum := by
      rw [← ih (l.filter fun r => !(decide (r.candidate = k)))
            (List.nodup_cons.mp hnd).2 hcov2]
      exact congrArg List.sum (List.map_congr_left fun k2 hk2 => (hrest k2 hk2).symm)
    have hsplit := sum_map_filter_add l (fun r => decide (r.candidate = k))
      NormalizedRecord.votes
    calc ((k :: keys).map fun k2 => votesFor l k2).sum
        = votesFor l k + (keys.map fun k2 => votesFor l k2).sum := by simp
      _ = (l.map NormalizedRecord.votes).sum := by
          rw [hkeys]
          unfold votesFor
          omega

/-- The candidate tallies of a record list sum to its total vote count. -/
lemma candidateTallies_sum (recs : List NormalizedRecord) :
    ((candidateTallies recs).map Prod.snd).sum
      = (recs.map NormalizedRecord.votes).sum := by
  unfold candidateTallies candKeys
  rw [List.map_map]
  have hperm :
      List.Perm
        ((List.insertionSort candLE ((recs.map NormalizedRecord.candidate).dedup)).map
          fun k => votesFor recs k)
        (((recs.map NormalizedRecord.candidate).dedup).map fun k => votesFor recs k) :=
    (List.perm_insertionSort _ _).map _
  calc ((List.insertionSort candLE ((recs.map NormalizedRecord.candidate).dedup)).map
          (Prod.snd ∘ fun k => (k, votesFor recs k))).sum
      = ((List.insertionSort candLE ((recs.map NormalizedRecord.candidate).dedup)).map
          fun k => votesFor recs k).sum := rfl
    _ = (((recs.map NormalizedRecord.candidate).dedup).map fun k => votesFor recs k).sum :=
        hperm.sum_eq
    _ = (recs.map NormalizedRecord.votes).sum :=
        sum_votesFor_eq _ recs (List.nodup_dedup _)
          (fun r hr => List.mem_dedup.mpr (List.mem_map_of_mem _ hr))

/-- Every contest produced by the Aggregator has `totalVotes` equal to the sum
of its per-candidate votes. -/
lemma contestFor_total_eq_sum (year : Nat) (office : String)
    (recs : List NormalizedRecord) (c : CountyIdentity) :
    (contestFor year office recs c).totalVotes
      = ((contestFor year office recs c).candidates.map Prod.snd).sum :=
  (candidateTallies_sum (recordsFor recs c)).symm

/-! ## Permutation-invariance lemmas -/

/-- Sorting the dedup of permuted lists gives identical results. -/
lemma insertionSort_dedup_eq_of_perm {α : Type} [DecidableEq α]
    (r : α → α → Prop) [DecidableRel r] [IsTotal α r] [IsTrans α r] [IsAntisymm α r]
    {l₁ l₂ : List α} (h : List.Perm l₁ l₂) :
    List.insertionSort r l₁.dedup = List.insertionSort r l₂.dedup :=
  List.eq_of_perm_of_sorted
    (((List.perm_insertionSort r _).trans h.dedup).trans
      (List.perm_insertionSort r _).symm)
    (List.sorted_insertionSort r _) (List.sorted_insertionSort r _)

/-- `votesFor` only depends on the multiset of input records. -/
lemma votesFor_perm {l₁ l₂ : List NormalizedRecord} (h : List.Perm l₁ l₂)
    (k : CandidateIdentity) : votesFor l₁ k = votesFor l₂ k :=
  ((h.filter _).map _).sum_eq

/-- `recordsFor` maps permuted inputs to permuted outputs. -/
lemma recordsFor_perm {l₁ l₂ : List NormalizedRecord} (h : List.Perm l₁ l₂)
    (c : CountyIdentity) : List.Perm (recordsFor l₁ c) (recordsFor l₂ c) :=
  h.filter _

/-- Candidate keys are identical for permuted inputs. -/
lemma candKeys_perm {l₁ l₂ : List NormalizedRecord} (h : List.Perm l₁ l₂) :
    candKeys l₁ = candKeys l₂ :=
  insertionSort_dedup_eq_of_perm candLE (h.map _)

/-- Candidate tallies are identical for permuted inputs. -/
lemma candidateTallies_perm {l₁ l₂ : List NormalizedRecord} (h : List.Perm l₁ l₂) :
    candidateTallies l₁ = candidateTallies l₂ := by
  unfold candidateTallies
  rw [candKeys_perm h]
  exact List.map_congr_left fun k _ => by rw [votesFor_perm h k]

/-- One county's aggregated contest is identical for permuted inputs. -/
lemma contestFor_perm {l₁ l₂ : List NormalizedRecord} (h : List.Perm l₁ l₂)
    (year : Nat) (office : String) (c : CountyIdentity) :
    contestFor year office l₁ c = contestFor year office l₂ c := by
  unfold contestFor
  rw [candidateTallies_perm (recordsFor_perm h c),
    ((recordsFor_perm h c).map NormalizedRecord.votes).sum_eq]

/-- County keys are identical for permuted inputs. -/
lemma countyKeys_perm {l₁ l₂ : List NormalizedRecord} (h : List.Perm l₁ l₂) :
    countyKeys l₁ = countyKeys l₂ :=
  insertionSort_dedup_eq_of_perm countyLE (h.map _)

/-- Aggregation is insensitive to the order of its input rows. -/
lemma aggregate_perm {l₁ l₂ : List NormalizedRecord} (h : List.Perm l₁ l₂)
    (year : Nat) (office : String) :
    aggregate year office l₁ = aggregate year office l₂ := by
  unfold aggregate
  rw [countyKeys_perm h]
  exact List.map_congr_left fun c _ => contestFor_perm h year office c

/-- The checked aggregation is insensitive to the order of its input rows. -/
lemma aggregateChecked_perm {l₁ l₂ : List NormalizedRecord} (h : List.Perm l₁ l₂)
    (year : Nat) (office : String) :
    aggregateChecked year office l₁ = aggregateChecked year office l₂ := by
  unfold aggregateChecked
  rw [aggregate_perm h]

/-! ## Normalizer lemmas -/

/-- `normalizeCounty` either succeeds or fails with `UnmappedCountyError`. -/
lemma normalizeCounty_ok_or_err (raw : String) :
    (∃ c, normalizeCounty raw = .ok c)
      ∨ normalizeCounty raw = .error .unmappedCounty := by
  unfold normalizeCounty
  cases countyLookup.lookup (canonicalize raw) <;> simp

/-- A county name missing from the lookup table is a hard error. -/
lemma normalizeCounty_error_of_lookup_none {raw : String}
    (h : countyLookup.lookup (canonicalize raw) = none) :
    normalizeCounty raw = .error .unmappedCounty := by
  unfold normalizeCounty
  rw [h]

/-- An unmatched candidate name falls back to the `WRITE_IN` bucket. -/
lemma normalizeCandidate_writeIn {rawName : String} (rawParty : String)
    (h : candidateNameDirectory.lookup (canonicalize rawName) = none) :
    normalizeCandidate rawName rawParty = writeInBucket := by
  unfold normalizeCandidate
  rw [h]

/-- Record normalization fails exactly when its county fails. -/
lemma normalizeRecord_error {r : RawVoteRecord}
    (h : normalizeCounty r.countyNameRaw = .error .unmappedCounty) :
    normalizeRecord r = .error .unmappedCounty := by
  unfold normalizeRecord
  rw [h]

/-- Record normalization succeeds whenever the county maps. -/
lemma normalizeRecord_ok {r : RawVoteRecord} {c : CountyIdentity}
    (h : normalizeCounty r.countyNameRaw = .ok c) :
    normalizeRecord r
      = .ok { year := r.year, office := r.office, county := c,
              candidate := normalizeCandidate r.candidateNameRaw r.partyRaw,
              votes := r.votes } := by
  unfold normalizeRecord
  rw [h]

/-- A failing record normalization always reports `UnmappedCountyError`:
candidate fallbacks never fail. -/
lemma normalizeRecord_error_shape {r : RawVoteRecord} {e : PipelineError}
    (h : normalizeRecord r = .error e) : e = .unmappedCounty := by
  unfold normalizeRecord at h
  rcases normalizeCounty_ok_or_err r.countyNameRaw with ⟨c, hc⟩ | hc <;> rw [hc] at h
  · cases h
  · cases h
    rfl

/-- Any unmapped county anywhere in the input halts the whole run with
`UnmappedCountyError`. -/
lemma normalizeAll_error_of_mem {raws : List RawVoteRecord} {r : RawVoteRecord}
    (hr : r ∈ raws)
    (hbad : normalizeCounty r.countyNameRaw = .error .unmappedCounty) :
    normalizeAll raws = .error .unmappedCounty := by
  induction raws with
  | nil => cases hr
  | cons a raws ih =>
    simp only [normalizeAll]
    rcases List.mem_cons.mp hr with rfl | hmem
    · rw [normalizeRecord_error hbad]
    · cases hna : normalizeRecord a with
      | error e => rw [normalizeRecord_error_shape hna]
      | ok nr => rw [ih hmem]

/-- Normalization of a record under the (provable) assumption that its county
maps; the default is never reached on such records. -/
def normFallback (r : RawVoteRecord) : NormalizedRecord where
  year := r.year
  office := r.office
  county := ((normalizeCounty r.countyNameRaw).toOption).getD ⟨"", 0⟩
  candidate := normalizeCandidate r.candidateNameRaw r.partyRaw
  votes := r.votes

/-- When every county maps, the run succeeds and is the pointwise
normalization of the input. -/
lemma normalizeAll_ok_map {raws : List RawVoteRecord}
    (h : ∀ r ∈ raws, ∃ c, normalizeCounty r.countyNameRaw = .ok c) :
    normalizeAll raws = .ok (raws.map normFallback) := by
  induction raws with
  | nil => rfl
  | cons a raws ih =>
    obtain ⟨c, hc⟩ := h a (by simp)
    simp only [normalizeAll]
    rw [normalizeRecord_ok hc, ih fun r hr => h r (by simp [hr])]
    simp [normFallback, hc, Except.toOption]

/-! ## Classifier lemmas -/

/-- The fold step ignores candidates of other parties. -/
lemma topStep_skip {p : Party} {c : CandidateIdentity × Nat}
    (h : c.1.party ≠ p) (best : Option (CandidateIdentity × Nat)) :
    topStep p best c = best := by
  unfold topStep
  rw [if_neg h]

/-- Folding over candidates none of which has party `p` keeps the
accumulator. -/
lemma foldl_topStep_id {p : Party} {cands : List (CandidateIdentity × Nat)}
    (h : ∀ cd ∈ cands, cd.1.party ≠ p) :
    ∀ acc, cands.foldl (topStep p) acc = acc := by
  induction cands with
  | nil => intro acc; rfl
  | cons cd cands ih =>
    intro acc
    rw [List.foldl_cons, topStep_skip (h cd (by simp))]
    exact ih (fun x hx => h x (by simp [hx])) acc

/-- No candidate of party `p` means no top candidate of party `p`. -/
lemma topByParty_eq_none {p : Party} {cands : List (CandidateIdentity × Nat)}
    (h : ∀ cd ∈ cands, cd.1.party ≠ p) : topByParty p cands = none :=
  foldl_topStep_id h none

/-- A contest missing either major party fails classification with
`MissingMajorPartyCandidateError`. -/
lemma classifyContest_error_of_missing {cr : ContestResult}
    (h : (∀ cd ∈ cr.candidates, cd.1.party ≠ Party.DEM)
        ∨ (∀ cd ∈ cr.candidates, cd.1.party ≠ Party.REP)) :
    classifyContest cr = .error .missingMajorParty := by
  unfold classifyContest marginOf
  rcases h with h | h
  · rw [topByParty_eq_none h]
  · rw [topByParty_eq_none h]
    cases topByParty .DEM cr.candidates <;> rfl

/-- A successfully classified result carries its own contest. -/
lemma classifyContest_ok_contest {cr : ContestResult} {res : ClassifiedResult}
    (h : classifyContest cr = .ok res) : res.contest = cr := by
  unfold classifyContest at h
  cases hm : marginOf cr <;> rw [hm] at h
  · cases h
  · cases h
    rfl

/-- A contest whose classification fails contributes nothing to the output. -/
lemma classifyAll_not_mem {crs : List ContestResult} {cr : ContestResult}
    (herr : classifyContest cr = .error .missingMajorParty) :
    ∀ res ∈ classifyAll crs, res.contest ≠ cr := by
  intro res hres heq
  obtain ⟨c, hc, hcok⟩ := List.mem_filterMap.mp hres
  have hok : classifyContest c = .ok res := by
    cases hcc : classifyContest c <;> rw [hcc] at hcok
    · cases hcok
    · cases hcok
      rfl
  have hceq : c = cr := (classifyContest_ok_contest hok).symm.trans heq
  rw [hceq, herr] at hok
  cases hok

/-- Sibling contests that do classify stay in the output. -/
lemma classifyAll_mem_of_ok {crs : List ContestResult} {cr : ContestResult}
    {res : ClassifiedResult} (hmem : cr ∈ crs)
    (hok : classifyContest cr = .ok res) : res ∈ classifyAll crs :=
  List.mem_filterMap.mpr ⟨cr, hmem, by rw [hok]; rfl⟩

/-- The two-party margin formula, once both top candidates exist. -/
lemma marginOf_eq_formula {cr : ContestResult} {d r : CandidateIdentity × Nat}
    (hd : topByParty .DEM cr.candidates = some d)
    (hr : topByParty .REP cr.candidates = some r) :
    marginOf cr = .ok (((d.2 : ℚ) - (r.2 : ℚ)) / (cr.totalVotes : ℚ) * 100) := by
  unfold marginOf
  rw [hd, hr]

/-! ## Pipeline determinism lemmas -/

/-- The pipeline output depends only on the multiset of input rows. -/
lemma runPipeline_perm {raws₁ raws₂ : List RawVoteRecord}
    (h : List.Perm raws₁ raws₂) (year : Nat) (office : String) :
    runPipeline year office raws₁ = runPipeline year office raws₂ := by
  by_cases hbad :
    ∃ r ∈ raws₁, normalizeCounty r.countyNameRaw = .error .unmappedCounty
  · obtain ⟨r, hr, hbr⟩ := hbad
    unfold runPipeline
    rw [normalizeAll_error_of_mem hr hbr,
      normalizeAll_error_of_mem (h.mem_iff.mp hr) hbr]
  · push_neg at hbad
    have hok : ∀ r ∈ raws₁, ∃ c, normalizeCounty r.countyNameRaw = .ok c :=
      fun r hr => (normalizeCounty_ok_or_err _).resolve_right (hbad r hr)
    unfold runPipeline
    rw [normalizeAll_ok_map hok,
      normalizeAll_ok_map fun r hr => hok r (h.mem_iff.mpr hr)]
    show Except.ok
        (emitDataset (classifyAll (aggregateChecked year office (raws₁.map normFallback))))
      = Except.ok
        (emitDataset (classifyAll (aggregateChecked year office (raws₂.map normFallback))))
    rw [aggregateChecked_perm (h.map normFallback)]

/-! ## Dataset-statistics lemmas -/

/-- From `src/config.example.js` (Data Statistics): "Elections Tracked: 37
contests". -/
def electionsTracked : Nat := 37

/-- From `src/config.example.js` (Data Statistics): "Counties: All 83 Michigan
counties". -/
def countiesTracked : Nat := 83

/-- From `src/config.example.js` (Data Statistics / Key Features): "County
Records: 3,071 individual county results". -/
def countyRecordCount : Nat := 3071

/-- A list of naturals bounded by `k` whose sum is maximal is constantly
`k`. -/
lemma all_eq_of_sum_eq_mul {l : List Nat} {k : Nat} (hb : ∀ x ∈ l, x ≤ k)
    (hs : l.sum = l.length * k) : ∀ x ∈ l, x = k := by
  induction l with
  | nil => simp
  | cons a l ih =>
    have hsl : l.sum ≤ l.length * k := by
      have hle := List.sum_le_card_nsmul l k fun x hx => hb x (by simp [hx])
      simpa [smul_eq_mul] using hle
    have ha : a ≤ k := hb a (by simp)
    have hexp : (l.length + 1) * k = l.length * k + k := by ring
    simp only [List.sum_cons, List.length_cons] at hs
    rw [hexp] at hs
    have hak : a = k ∧ l.sum = l.length * k := by omega
    intro x hx
    rcases List.mem_cons.mp hx with rfl | hx2
    · exact hak.1
    · exact ih (fun y hy => hb y (by simp [hy])) hak.2 x hx2

/-- A duplicate-free list contained in another list is no longer than it. -/
lemma nodup_subset_length_le {α : Type} [DecidableEq α] {g l : List α}
    (hg : g.Nodup) (hsub : ∀ x ∈ g, x ∈ l) : g.length ≤ l.length :=
  calc g.length = g.toFinset.card := (List.toFinset_card_of_nodup hg).symm
    _ ≤ l.toFinset.card :=
        Finset.card_le_card fun x hx =>
          List.mem_toFinset.mpr (hsub x (List.mem_toFinset.mp hx))
    _ ≤ l.length := l.toFinset_card_le

/-- A duplicate-free list contained in a duplicate-free list of the same
length exhausts it. -/
lemma mem_of_nodup_subset_full {α : Type} [DecidableEq α] {g l : List α}
    (hg : g.Nodup) (hl : l.Nodup) (hsub : ∀ x ∈ g, x ∈ l)
    (hlen : l.length ≤ g.length) : ∀ x ∈ l, x ∈ g := by
  have hfs : g.toFinset ⊆ l.toFinset := fun x hx =>
    List.mem_toFinset.mpr (hsub x (List.mem_toFinset.mp hx))
  have hcard : l.toFinset.card ≤ g.toFinset.card := by
    rw [List.toFinset_card_of_nodup hg, List.toFinset_card_of_nodup hl]
    exact hlen
  have heq := Finset.eq_of_subset_of_card_le hfs hcard
  intro x hx
  have hxf : x ∈ l.toFinset := List.mem_toFinset.mpr hx
  rw [← heq] at hxf
  exact List.mem_toFinset.mp hxf

def kent2000 : ContestResult where
  year := 2000
  office := "President"
  county := CountyIdentity.mk "Kent" 26081
  candidates :=
    [ (CandidateIdentity.mk "Al Gore" .DEM, 120000),
      (CandidateIdentity.mk "George W. Bush" .REP, 150000) ]
  totalVotes := 270000

/-- The canonical county list has no duplicates. -/
lemma michiganCounties_nodup : michiganCounties.Nodup := by decide

/-- The canonical county list has exactly 83 entries. -/
lemma michiganCounties_length : michiganCounties.length = 83 := by rfl

/-- The county lookup table is unambiguous: no key occurs twice. -/
lemma countyLookup_keys_nodup : (countyLookup.map Prod.fst).Nodup := by decide

/-- Every table entry maps into the canonical 83-county enumeration. -/
lemma countyLookup_values_canonical :
    ∀ kv ∈ countyLookup, kv.2 ∈ michiganCounties := by decide

/-! ## Claim theorems -/

/-- C1: For every `ContestResult` with a top Democratic-aligned and a top
Republican-aligned candidate, the Margin & Classifier computes
`marginPercent = (Democratic votes − Republican votes) / totalVotes × 100`,
signed so a positive value favors Democrats; the Kent/President/2000 scenario
with 120,000 Democratic votes, 150,000 Republican votes and 270,000 total
votes yields `marginPercent = −100/9 ≈ −11.11`. -/
theorem margin_formula_and_kent_scenario :
    (∀ (cr : ContestResult) (d r : CandidateIdentity × Nat),
        topByParty .DEM cr.candidates = some d →
        topByParty .REP cr.candidates = some r →
        marginOf cr = .ok (((d.2 : ℚ) - (r.2 : ℚ)) / (cr.totalVotes : ℚ) * 100))
      ∧ marginOf kent2000 = .ok (-100/9)
      ∧ |(-100/9 : ℚ) - (-1111/100)| < 1/100 := by
  refine ⟨fun cr d r hd hr => marginOf_eq_formula hd hr, ?_, ?_⟩
  · rw [@marginOf_eq_formula kent2000
      (CandidateIdentity.mk "Al Gore" .DEM, 120000)
      (CandidateIdentity.mk "George W. Bush" .REP, 150000) rfl rfl]
    simp only [Except.ok.injEq]
    norm_num [kent2000]
  · rw [abs_lt]
    constructor <;> norm_num

/-- Witness for C1: the formula component evaluated on the concrete Kent 2000
contest. -/
theorem margin_formula_and_kent_scenario_witness :
    marginOf kent2000
      = .ok ((((120000 : ℚ)) - (150000 : ℚ)) / ((270000 : ℚ)) * 100) :=
  margin_formula_and_kent_scenario.1 kent2000
    (CandidateIdentity.mk "Al Gore" .DEM, 120000)
    (CandidateIdentity.mk "George W. Bush" .REP, 150000) rfl rfl

/-- C2: classification is total and single-valued: the 15 closed-open bands of
the table cover every rational margin with no gaps (every margin lies in a
band whose category is the classified one) and no overlaps (no margin lies in
two distinct bands). -/
theorem classification_total_single_valued :
    fullBands.length = 15
      ∧ (∀ m : ℚ, ∃ b ∈ fullBands, bandContains b m ∧ b.cat = classify m)
      ∧ (∀ m : ℚ, ∀ b₁ ∈ fullBands, ∀ b₂ ∈ fullBands,
          bandContains b₁ m → bandContains b₂ m → b₁ = b₂) :=
  ⟨rfl, classify_mem_band,
    fun m _ hb₁ _ hb₂ h₁ h₂ => band_unique m hb₁ hb₂ h₁ h₂⟩

/-- Witness for C2: coverage and uniqueness evaluated at the concrete margin
4, which lies in the `D_LEAN` band. -/
theorem classification_total_single_valued_witness :
    (∃ b ∈ fullBands, bandContains b 4 ∧ b.cat = classify 4)
      ∧ Band.mk (some 1) (some 5) Category.D_LEAN
          = Band.mk (some 1) (some 5) Category.D_LEAN :=
  ⟨classification_total_single_valued.2.1 4,
    classification_total_single_valued.2.2 4
      (Band.mk (some 1) (some 5) Category.D_LEAN) (by simp [fullBands])
      (Band.mk (some 1) (some 5) Category.D_LEAN) (by simp [fullBands])
      (by constructor <;> norm_num [lbOK, ubOK])
      (by constructor <;> norm_num [lbOK, ubOK])⟩

/-- Counterexample for C3: the margin 0.71 — the `D_TILT` example of
`src/config.example.js` — has magnitude below the claimed 1-point TOSSUP
threshold yet does not classify as TOSSUP; moreover the STRONGHOLD band
(the 20.05 and 25.69 examples) lies *below* the DOMINANT band (the 30.26 and
30.31 examples), contradicting the claimed order
`…, SAFE, DOMINANT, STRONGHOLD, ANNIHILATION`. -/
theorem tossup_threshold_and_order_counterexample :
    (|(71 : ℚ)/100| < 1 ∧ classify ((71 : ℚ)/100) ≠ Category.TOSSUP)
      ∧ classify ((2569 : ℚ)/100) = Category.D_STRONGHOLD
      ∧ classify ((3031 : ℚ)/100) = Category.D_DOMINANT := by
  refine ⟨⟨by rw [abs_lt]; constructor <;> norm_num, ?_⟩, ?_, ?_⟩
  · rw [classify_eq_D_TILT ((71 : ℚ)/100) (by norm_num) (by norm_num)]
    decide
  · exact classify_eq_D_STRONGHOLD _ (by norm_num) (by norm_num)
  · exact classify_eq_D_DOMINANT _ (by norm_num) (by norm_num)

/-- C3 (amended): TOSSUP exactly for margins of magnitude below 0.5; per
direction the category then progresses TILT, LEAN, LIKELY, SAFE, STRONGHOLD,
DOMINANT, ANNIHILATION as the magnitude increases through the breakpoints
0.5, 1, 5, 10, 20, 30, 40; a margin of +4 points classifies Democratic
LEAN. -/
theorem category_progression :
    (∀ m : ℚ, |m| < 1/2 → classify m = .TOSSUP)
      ∧ (∀ m : ℚ, 1/2 ≤ m → m < 1 → classify m = .D_TILT)
      ∧ (∀ m : ℚ, 1 ≤ m → m < 5 → classify m = .D_LEAN)
      ∧ (∀ m : ℚ, 5 ≤ m → m < 10 → classify m = .D_LIKELY)
      ∧ (∀ m : ℚ, 10 ≤ m → m < 20 → classify m = .D_SAFE)
      ∧ (∀ m : ℚ, 20 ≤ m → m < 30 → classify m = .D_STRONGHOLD)
      ∧ (∀ m : ℚ, 30 ≤ m → m < 40 → classify m = .D_DOMINANT)
      ∧ (∀ m : ℚ, 40 ≤ m → classify m = .D_ANNIHILATION)
      ∧ (∀ m : ℚ, -1 ≤ m → m < -(1/2) → classify m = .R_TILT)
      ∧ (∀ m : ℚ, -5 ≤ m → m < -1 → classify m = .R_LEAN)
      ∧ (∀ m : ℚ, -10 ≤ m → m < -5 → classify m = .R_LIKELY)
      ∧ (∀ m : ℚ, -20 ≤ m → m < -10 → classify m = .R_SAFE)
      ∧ (∀ m : ℚ, -30 ≤ m → m < -20 → classify m = .R_STRONGHOLD)
      ∧ (∀ m : ℚ, -40 ≤ m → m < -30 → classify m = .R_DOMINANT)
      ∧ (∀ m : ℚ, m < -40 → classify m = .R_ANNIHILATION)
      ∧ classify 4 = .D_LEAN := by
  refine ⟨?_, classify_eq_D_TILT, classify_eq_D_LEAN, classify_eq_D_LIKELY,
    classify_eq_D_SAFE, classify_eq_D_STRONGHOLD, classify_eq_D_DOMINANT,
    classify_eq_D_ANNIHILATION, classify_eq_R_TILT, classify_eq_R_LEAN,
    classify_eq_R_LIKELY, classify_eq_R_SAFE, classify_eq_R_STRONGHOLD,
    classify_eq_R_DOMINANT, classify_eq_R_ANNIHILATION,
    classify_eq_D_LEAN 4 (by norm_num) (by norm_num)⟩
  intro m hm
  rw [abs_lt] at hm
  exact classify_eq_TOSSUP m (by linarith [hm.1]) hm.2

/-- Witness for C3 (amended): concrete margins 0 (TOSSUP), +4 (Democratic
LEAN) and −2 (Republican LEAN). -/
theorem category_progression_witness :
    classify 0 = Category.TOSSUP ∧ classify 4 = Category.D_LEAN
      ∧ classify (-2) = Category.R_LEAN := by
  obtain ⟨hT, _, _, _, _, _, _, _, _, hRL, _⟩ := category_progression
  exact ⟨hT 0 (by norm_num), category_progression.2.2.1 4 (by norm_num) (by norm_num),
    hRL (-2) (by norm_num) (by norm_num)⟩

/-- C4: every contest emitted by the (checked) Aggregator has `totalVotes`
equal to the exact integer sum of all its candidates' votes — the `WRITE_IN` /
`UNKNOWN` bucket, being an ordinary candidate identity, included — and
`totalVotes > 0`. -/
theorem totalVotes_eq_sum_and_pos :
    ∀ (year : Nat) (office : String) (recs : List NormalizedRecord),
      ∀ cr ∈ aggregateChecked year office recs,
        cr.totalVotes = (cr.candidates.map Prod.snd).sum ∧ 0 < cr.totalVotes := by
  intro y o recs cr hcr
  have hmem := List.mem_of_mem_filter hcr
  have hpos := List.of_mem_filter hcr
  obtain ⟨c, _, rfl⟩ := List.mem_map.mp hmem
  refine ⟨contestFor_total_eq_sum y o recs c, ?_⟩
  simpa using hpos

/-- Witness for C4: the single-record Kent input, whose aggregate holds one
contest with `totalVotes = 5 > 0`. -/
theorem totalVotes_eq_sum_and_pos_witness :
    (contestFor 2000 "President"
        [⟨2000, "President", CountyIdentity.mk "Kent" 26081,
          CandidateIdentity.mk "Al Gore" .DEM, 5⟩]
        (CountyIdentity.mk "Kent" 26081)).totalVotes
      = ((contestFor 2000 "President"
          [⟨2000, "President", CountyIdentity.mk "Kent" 26081,
            CandidateIdentity.mk "Al Gore" .DEM, 5⟩]
          (CountyIdentity.mk "Kent" 26081)).candidates.map Prod.snd).sum
    ∧ 0 < (contestFor 2000 "President"
        [⟨2000, "President", CountyIdentity.mk "Kent" 26081,
          CandidateIdentity.mk "Al Gore" .DEM, 5⟩]
        (CountyIdentity.mk "Kent" 26081)).totalVotes :=
  totalVotes_eq_sum_and_pos 2000 "President"
    [⟨2000, "President", CountyIdentity.mk "Kent" 26081,
      CandidateIdentity.mk "Al Gore" .DEM, 5⟩]
    _ (by decide)

/-- C5: aggregation is additive and order-insensitive: votes of records for
the same (county, candidate) key are summed, never overwritten — appending
duplicate rows adds their votes — and permuting the input row order yields the
identical list of `ContestResult`. -/
theorem aggregation_additive_commutative :
    (∀ (l₁ l₂ : List NormalizedRecord) (k : CandidateIdentity),
        votesFor (l₁ ++ l₂) k = votesFor l₁ k + votesFor l₂ k)
      ∧ (∀ (year : Nat) (office : String) (l₁ l₂ : List NormalizedRecord),
          List.Perm l₁ l₂ → aggregate year office l₁ = aggregate year office l₂) := by
  constructor
  · intro l₁ l₂ k
    unfold votesFor
    rw [List.filter_append, List.map_append, List.sum_append]
  · intro y o l₁ l₂ h
    exact aggregate_perm h y o

/-- Witness for C5: two duplicate Kent rows sum to 5 + 7, and swapping two
input rows leaves the aggregate unchanged. -/
theorem aggregation_additive_commutative_witness :
    votesFor
        ([⟨2000, "President", CountyIdentity.mk "Kent" 26081,
            CandidateIdentity.mk "Al Gore" .DEM, 5⟩]
          ++ [⟨2000, "President", CountyIdentity.mk "Kent" 26081,
            CandidateIdentity.mk "Al Gore" .DEM, 7⟩])
        (CandidateIdentity.mk "Al Gore" .DEM)
      = votesFor
          [⟨2000, "President", CountyIdentity.mk "Kent" 26081,
            CandidateIdentity.mk "Al Gore" .DEM, 5⟩]
          (CandidateIdentity.mk "Al Gore" .DEM)
        + votesFor
          [⟨2000, "President", CountyIdentity.mk "Kent" 26081,
            CandidateIdentity.mk "Al Gore" .DEM, 7⟩]
          (CandidateIdentity.mk "Al Gore" .DEM)
    ∧ aggregate 2000 "President"
        [⟨2000, "President", CountyIdentity.mk "Kent" 26081,
          CandidateIdentity.mk "Al Gore" .DEM, 5⟩,
         ⟨2000, "President", CountyIdentity.mk "Wayne" 26163,
          CandidateIdentity.mk "George W. Bush" .REP, 7⟩]
      = aggregate 2000 "President"
        [⟨2000, "President", CountyIdentity.mk "Wayne" 26163,
          CandidateIdentity.mk "George W. Bush" .REP, 7⟩,
         ⟨2000, "President", CountyIdentity.mk "Kent" 26081,
          CandidateIdentity.mk "Al Gore" .DEM, 5⟩] :=
  ⟨aggregation_additive_commutative.1 _ _ _,
    aggregation_additive_commutative.2 2000 "President" _ _ (List.Perm.swap _ _ _)⟩

/-- C6: the Name Normalizer is fatal on counties and recoverable on
candidates: a county name missing from the lookup table yields
`UnmappedCountyError` and any such record halts the whole run, while a
candidate name missing from the directory falls back to the `WRITE_IN` /
"Other" bucket and a run whose counties all map always succeeds. -/
theorem county_fatal_candidate_recoverable :
    (∀ raw : String, countyLookup.lookup (canonicalize raw) = none →
        normalizeCounty raw = .error .unmappedCounty)
      ∧ (∀ rawName rawParty : String,
          candidateNameDirectory.lookup (canonicalize rawName) = none →
          normalizeCandidate rawName rawParty = writeInBucket)
      ∧ (∀ (raws : List RawVoteRecord) (r : RawVoteRecord), r ∈ raws →
          normalizeCounty r.countyNameRaw = .error .unmappedCounty →
          normalizeAll raws = .error .unmappedCounty)
      ∧ (∀ raws : List RawVoteRecord,
          (∀ r ∈ raws, ∃ c, normalizeCounty r.countyNameRaw = .ok c) →
          normalizeAll raws = .ok (raws.map normFallback)) :=
  ⟨fun _ h => normalizeCounty_error_of_lookup_none h,
    fun _ rawParty h => normalizeCandidate_writeIn rawParty h,
    fun _ _ hr hbad => normalizeAll_error_of_mem hr hbad,
    fun _ h => normalizeAll_ok_map h⟩

/-- Witness for C6: the unknown county "Atlantis" is fatal, the unknown
candidate "Zaphod Beeblebrox" falls back to the bucket, one Atlantis record
halts a run, and an all-mapped run succeeds. -/
theorem county_fatal_candidate_recoverable_witness :
    normalizeCounty "Atlantis" = .error .unmappedCounty
      ∧ normalizeCandidate "Zaphod Beeblebrox" "DEM" = writeInBucket
      ∧ normalizeAll [⟨2000, "President", "Atlantis", "Al Gore", "DEM", 5⟩]
          = .error .unmappedCounty
      ∧ normalizeAll [⟨2000, "President", "Kent", "Al Gore", "DEM", 5⟩]
          = .ok ([⟨2000, "President", "Kent", "Al Gore", "DEM", 5⟩].map normFallback) :=
  ⟨county_fatal_candidate_recoverable.1 "Atlantis" (by decide),
    county_fatal_candidate_recoverable.2.1 "Zaphod Beeblebrox" "DEM" (by decide),
    county_fatal_candidate_recoverable.2.2.1
      [⟨2000, "President", "Atlantis", "Al Gore", "DEM", 5⟩]
      ⟨2000, "President", "Atlantis", "Al Gore", "DEM", 5⟩ (by simp)
      (county_fatal_candidate_recoverable.1 "Atlantis" (by decide)),
    county_fatal_candidate_recoverable.2.2.2 _
      (by
        intro r hr
        rcases List.mem_singleton.mp hr with rfl
        refine ⟨CountyIdentity.mk "Kent" 26081, ?_⟩
        have hc : canonicalize "Kent" = "kent" := by decide
        unfold normalizeCounty
        rw [hc]
        rfl)⟩

/-- A contest with only third-party candidates, used to exercise the C7
exclusion path. -/
def thirdPartyOnly : ContestResult where
  year := 2000
  office := "President"
  county := CountyIdentity.mk "Kent" 26081
  candidates := [ (CandidateIdentity.mk "Ralph Nader" .GRN, 3000) ]
  totalVotes := 3000

/-- A two-party contest, used as the surviving sibling in the C7 witness. -/
def twoPartyKent : ContestResult where
  year := 2000
  office := "President"
  county := CountyIdentity.mk "Wayne" 26163
  candidates :=
    [ (CandidateIdentity.mk "Al Gore" .DEM, 8),
      (CandidateIdentity.mk "George W. Bush" .REP, 2) ]
  totalVotes := 10

/-- C7: a contest with no Democratic-aligned candidate or no
Republican-aligned candidate fails classification with
`MissingMajorPartyCandidateError` and is excluded from the output, while every
sibling contest whose classification succeeds remains present. -/
theorem missing_major_party_excluded :
    ∀ (crs : List ContestResult) (cr : ContestResult), cr ∈ crs →
      ((∀ cd ∈ cr.candidates, cd.1.party ≠ Party.DEM)
        ∨ (∀ cd ∈ cr.candidates, cd.1.party ≠ Party.REP)) →
      classifyContest cr = .error .missingMajorParty
        ∧ (∀ res ∈ classifyAll crs, res.contest ≠ cr)
        ∧ (∀ cr₂ ∈ crs, ∀ res, classifyContest cr₂ = .ok res →
            res ∈ classifyAll crs) := by
  intro crs cr _ h
  have herr := classifyContest_error_of_missing h
  exact ⟨herr, classifyAll_not_mem herr,
    fun cr₂ h₂ res hres => classifyAll_mem_of_ok h₂ hres⟩

/-- Witness for C7: in the batch `[twoPartyKent, thirdPartyOnly]` the
third-party-only contest errors and is excluded while the sibling remains. -/
theorem missing_major_party_excluded_witness :
    classifyContest thirdPartyOnly = .error .missingMajorParty
      ∧ (∀ res ∈ classifyAll [twoPartyKent, thirdPartyOnly],
          res.contest ≠ thirdPartyOnly)
      ∧ (∀ cr₂ ∈ [twoPartyKent, thirdPartyOnly], ∀ res,
          classifyContest cr₂ = .ok res →
          res ∈ classifyAll [twoPartyKent, thirdPartyOnly]) :=
  missing_major_party_excluded [twoPartyKent, thirdPartyOnly] thirdPartyOnly
    (by decide) (Or.inl (by decide))

/-- C8: county-name normalization lands in a canonical set of exactly 83
identities; the lookup table is unambiguous (no key twice) and maps only into
that set; and the spellings "St Clair", "St. Clair" and "Saint Clair" all
resolve to the same `CountyIdentity`. -/
theorem county_normalization_canonical :
    michiganCounties.length = 83
      ∧ michiganCounties.Nodup
      ∧ (countyLookup.map Prod.fst).Nodup
      ∧ (∀ kv ∈ countyLookup, kv.2 ∈ michiganCounties)
      ∧ normalizeCounty "St Clair" = .ok (CountyIdentity.mk "St. Clair" 26147)
      ∧ normalizeCounty "St. Clair" = .ok (CountyIdentity.mk "St. Clair" 26147)
      ∧ normalizeCounty "Saint Clair" = .ok (CountyIdentity.mk "St. Clair" 26147) := by
  refine ⟨michiganCounties_length, michiganCounties_nodup, countyLookup_keys_nodup,
    countyLookup_values_canonical, ?_, ?_, ?_⟩
  · have hc : canonicalize "St Clair" = "st clair" := by decide
    unfold normalizeCounty
    rw [hc]
    rfl
  · have hc : canonicalize "St. Clair" = "st clair" := by decide
    unfold normalizeCounty
    rw [hc]
    rfl
  · have hc : canonicalize "Saint Clair" = "saint clair" := by decide
    unfold normalizeCounty
    rw [hc]
    rfl

/-- Witness for C8: the table-wide component evaluated at the concrete
"alcona" entry. -/
theorem county_normalization_canonical_witness :
    (("alcona", CountyIdentity.mk "Alcona" 26001) :
        String × CountyIdentity).2 ∈ michiganCounties :=
  county_normalization_canonical.2.2.2.1
    ("alcona", CountyIdentity.mk "Alcona" 26001) (by decide)

/-- C9: the pipeline is deterministic: its serialized output is a function of
the input multiset alone, so two runs on identical inputs — and even runs on
reordered inputs — produce byte-identical serialized artifacts. -/
theorem pipeline_deterministic :
    ∀ (year : Nat) (office : String) (raws₁ raws₂ : List RawVoteRecord),
      List.Perm raws₁ raws₂ →
      runPipeline year office raws₁ = runPipeline year office raws₂ :=
  fun year office _ _ h => runPipeline_perm h year office

/-- Witness for C9: a second run on the identical one-record input produces
the identical output. -/
theorem pipeline_deterministic_witness :
    runPipeline 2000 "President" [⟨2000, "President", "Kent", "Al Gore", "DEM", 5⟩]
      = runPipeline 2000 "President"
          [⟨2000, "President", "Kent", "Al Gore", "DEM", 5⟩] :=
  pipeline_deterministic 2000 "President" _ _ (List.Perm.refl _)

/-- C10: the statistics of `src/config.example.js` are exactly consistent:
3,071 county records = 37 contests × 83 counties; and for any dataset of 37
contests whose county records are per-contest duplicate-free and drawn from
the 83 canonical counties, a total of 3,071 records forces every contest to
carry every county. -/
theorem records_cover_all_counties :
    countyRecordCount = electionsTracked * countiesTracked
      ∧ michiganCounties.length = countiesTracked
      ∧ (∀ dataset : List (List CountyIdentity),
          dataset.length = electionsTracked →
          (∀ g ∈ dataset, g.Nodup ∧ ∀ c ∈ g, c ∈ michiganCounties) →
          (dataset.map List.length).sum = countyRecordCount →
          ∀ g ∈ dataset, ∀ c ∈ michiganCounties, c ∈ g) := by
  refine ⟨rfl, rfl, ?_⟩
  intro ds hlen hg hsum g hgmem c hc
  have hb : ∀ n ∈ ds.map List.length, n ≤ 83 := by
    intro n hn
    obtain ⟨g₂, hg₂, rfl⟩ := List.mem_map.mp hn
    have hle := nodup_subset_length_le (hg g₂ hg₂).1 fun x hx => (hg g₂ hg₂).2 x hx
    rw [michiganCounties_length] at hle
    exact hle
  have hall : ∀ n ∈ ds.map List.length, n = 83 := by
    apply all_eq_of_sum_eq_mul hb
    rw [hsum, List.length_map, hlen]
    rfl
  have hglen : g.length = 83 := hall g.length (List.mem_map_of_mem _ hgmem)
  exact mem_of_nodup_subset_full (hg g hgmem).1 michiganCounties_nodup
    (fun x hx => (hg g hgmem).2 x hx)
    (by rw [hglen, michiganCounties_length]) c hc

/-- Witness for C10: the fully covered dataset of 37 copies of the canonical
county list, probed at Kent county. -/
theorem records_cover_all_counties_witness :
    CountyIdentity.mk "Kent" 26081 ∈ michiganCounties :=
  records_cover_all_counties.2.2 (List.replicate 37 michiganCounties)
    (by simp [electionsTracked])
    (fun g hgm => by
      rw [List.eq_of_mem_replicate hgm]
      exact ⟨michiganCounties_nodup, fun c hcm => hcm⟩)
    (by
      simp only [List.map_replicate, List.sum_replicate, smul_eq_mul,
        michiganCounties_length]
      rfl)
    michiganCounties (by simp)
    (CountyIdentity.mk "Kent" 26081) (by decide)

end MIRealign
